import Mathlib

/-!
Shallow embedding of the lead-capture backend in `app.py` (Flask service:
contact/open-access form submissions persisted to a SQLite table and a CSV
log file, with a fire-and-forget SMTP notification).

Python strings are modelled as `List Char`; JSON values reaching the handler
as the inductive `JVal`; the SQLite table and the CSV file as explicit state
(`StoreState`).  The AUTOINCREMENT row-id counter of SQLite is modelled by the
`seq` field (SQLite with AUTOINCREMENT never reuses a rowid: each insert gets
`seq + 1`).  Wall-clock time (`datetime.utcnow()`) is passed in as a parameter.
Fallible external effects (the SQLite insert, the CSV append, the SMTP
session) are driven by explicit failure flags, and `app.logger.error` calls
are collected in a log list.
-/

namespace App

/-- A Python `str`, as its list of characters. -/
abbrev PyStr := List Char

/-- The whitespace characters stripped by Python's `str.strip()`
(ASCII subset; `app.py` only ever strips user-supplied form text). -/
def isPySpace (c : Char) : Bool :=
  c == ' ' || c == '\t' || c == '\n' || c == '\r' || c == '\x0b' || c == '\x0c'

/-- Python `s.strip()`: drop whitespace from both ends. -/
def pyStrip (s : PyStr) : PyStr :=
  ((s.dropWhile isPySpace).reverse.dropWhile isPySpace).reverse

/-- JSON values that can appear as a field of the request body
(`request.get_json`).  Floats and nested containers are omitted: the claims
under study only involve null, booleans, integers and strings. -/
inductive JVal where
  | jnull : JVal
  | jbool : Bool → JVal
  | jnum : Int → JVal
  | jstr : PyStr → JVal
deriving Repr, DecidableEq

/-- Python truthiness of a `JVal` (`bool(v)`). -/
def pyTruthy : JVal → Bool
  | JVal.jnull => false
  | JVal.jbool b => b
  | JVal.jnum n => n != 0
  | JVal.jstr s => !s.isEmpty

/-- `data.get(key)`: first match in the association list, `None` when the key
is absent (a JSON object has unique keys, so first-match is exact). -/
def getField : List (String × JVal) → String → JVal
  | [], _ => JVal.jnull
  | (k, v) :: rest, key => if key = k then v else getField rest key

/-- Python `v or ""`: keep `v` when truthy, else the empty string. -/
def pyOrEmptyStr (v : JVal) : JVal :=
  if pyTruthy v then v else JVal.jstr []

/-- Python `v.strip()` on an arbitrary value: succeeds only on a `str`;
on any other value it raises `AttributeError` (modelled as `Except.error`). -/
def pyStrAttrStrip : JVal → Except Unit PyStr
  | JVal.jstr s => Except.ok (pyStrip s)
  | _ => Except.error ()

/-- `(data.get(key) or "").strip()` — the field-extraction idiom of both
handlers (`app.py` lines 144-146). -/
def getStripped (req : List (String × JVal)) (key : String) : Except Unit PyStr :=
  pyStrAttrStrip (pyOrEmptyStr (getField req key))

/-- `EMAIL_REGEX = re.compile(r"^[^@]+@[^@]+\.[^@]+$")` applied with
`.match` to a (stripped, hence newline-free) string.  The regex matches iff
the string splits as `A ++ "@" ++ B` with `A` nonempty and `'@'`-free and
`B` `'@'`-free containing a `'.'` that is neither its first nor its last
character (the `[^@]+` parts before and after that dot being nonempty).
Equivalently: the maximal `'@'`-free prefix is nonempty and is followed by
`'@'`, the remainder has no further `'@'`, and the remainder stripped of its
first and last characters contains a `'.'`. -/
def emailRegexMatch (s : PyStr) : Bool :=
  let lpart := s.takeWhile (fun c => c != '@')
  let rest := s.dropWhile (fun c => c != '@')
  match rest with
  | [] => false
  | _ :: domain =>
      !lpart.isEmpty && domain.all (fun c => c != '@') &&
        ((domain.drop 1).dropLast.contains '.')

/-- The declarative reading of `^[^@]+@[^@]+\.[^@]+$`: some decomposition
`A ++ "@" ++ B ++ "." ++ C` with `A`, `B`, `C` nonempty and `'@'`-free. -/
def EmailRegexSpec (s : PyStr) : Prop :=
  ∃ a b c : PyStr, a ≠ [] ∧ b ≠ [] ∧ c ≠ [] ∧
    (∀ x ∈ a, x ≠ '@') ∧ (∀ x ∈ b, x ≠ '@') ∧ (∀ x ∈ c, x ≠ '@') ∧
    s = a ++ '@' :: (b ++ '.' :: c)

/-- One row of the `leads` table (`CREATE TABLE` in `_init_db`,
`app.py` lines 40-49). -/
structure LeadRow where
  id : Nat
  topic : PyStr
  name : PyStr
  email : PyStr
  message : PyStr
  created_at : PyStr
deriving Repr, DecidableEq

/-- The SQLite side: whether the `leads` table exists, its rows, and the
AUTOINCREMENT sequence (largest rowid ever issued). -/
structure DBState where
  tableCreated : Bool
  rows : List LeadRow
  seq : Nat
deriving Repr, DecidableEq

/-- The whole store: the SQLite database plus the CSV file
(`none` = the file does not exist; `some lines` = its list of CSV records). -/
structure StoreState where
  db : DBState
  csv : Option (List (List PyStr))
deriving Repr, DecidableEq

/-- A fresh data directory: no table, no rows, sequence 0, no CSV file. -/
def initialState : StoreState :=
  { db := { tableCreated := false, rows := [], seq := 0 }, csv := none }

/-- The column list of the `CREATE TABLE IF NOT EXISTS leads (...)` statement
and of the CSV header row written by `_init_db` (`app.py` lines 40-53). -/
def leadsSchema : List String :=
  ["id", "topic", "name", "email", "message", "created_at"]

/-- The CSV header row, as written by `csv.writer(f).writerow([...])`. -/
def csvHeader : List PyStr := leadsSchema.map String.toList

/-- `_init_db` (`app.py` lines 36-55): `CREATE TABLE IF NOT EXISTS` plus,
when the CSV file does not exist, creating it with the header row. -/
def _init_db (s : StoreState) : StoreState :=
  { db := { s.db with tableCreated := true },
    csv :=
      match s.csv with
      | some lines => some lines
      | none => some [csvHeader] }

/-- Python `lead_id or ""` inside the CSV row (`app.py` line 71):
`None` and `0` are falsy and become the empty string. -/
def pyOrEmptyId : Option Nat → PyStr
  | none => []
  | some n => if n = 0 then [] else (toString n).toList

/-- `_save_lead` (`app.py` lines 57-74).  `dbFails` / `csvFails` say whether
the SQLite insert / the CSV append raises; either failure is caught, logged
and swallowed.  Returns `((lead_id, now), new store state, logged errors)`;
`now` is the timestamp the source computes from `datetime.utcnow()`. -/
def _save_lead (dbFails csvFails : Bool) (now topic name email message : PyStr)
    (s : StoreState) : (Option Nat × PyStr) × StoreState × List String :=
  let dbres : Option Nat × DBState × List String :=
    if dbFails then (none, s.db, ["[DB insert]"])
    else
      let newId := s.db.seq + 1
      (some newId,
        { s.db with
            rows := s.db.rows ++
              [{ id := newId, topic := topic, name := name, email := email,
                 message := message, created_at := now }],
            seq := newId },
        [])
  let lead_id := dbres.1
  let csvres : Option (List (List PyStr)) × List String :=
    if csvFails then (s.csv, ["[CSV append]"])
    else
      let row := [pyOrEmptyId lead_id, topic, name, email, message, now]
      match s.csv with
      | none => (some [row], [])
      | some lines => (some (lines ++ [row]), [])
  ((lead_id, now), { db := dbres.2.1, csv := csvres.1 }, dbres.2.2 ++ csvres.2)

/-- The SMTP-related environment variables (`os.environ.get`,
`app.py` lines 79-81): `none` = unset. -/
structure Env where
  zoho_email : Option PyStr
  zoho_app_password : Option PyStr
  zoho_to_email : Option PyStr
deriving Repr, DecidableEq

/-- Python `opt or dflt` on an optional string: `None` and `""` are falsy. -/
def pyOrDefault : Option PyStr → PyStr → PyStr
  | none, d => d
  | some s, d => if s.isEmpty then d else s

/-- `_send_email_sync` (`app.py` lines 78-118), reduced to its return value:
`False` when sender, credential or recipient resolves to empty ("Missing env
vars; skip send"), otherwise the outcome `smtpOk` of the SMTP session
(`True` on delivery, `False` when the session raises and is logged). -/
def _send_email_sync (env : Env) (smtpOk : Bool) : Bool :=
  let sender := pyStrip (pyOrDefault env.zoho_email [])
  let app_pass := pyStrip (pyOrDefault env.zoho_app_password [])
  let to_addr :=
    let t := pyStrip (pyOrDefault env.zoho_to_email sender)
    if t.isEmpty then sender else t
  if sender.isEmpty || app_pass.isEmpty || to_addr.isEmpty then false
  else smtpOk

/-- The JSON body `jsonify(...)` builds, together with the HTTP status.
Absent keys are `none`. -/
structure HttpResponse where
  status : Nat
  ok : Bool
  error : Option String := none
  id : Option (Option Nat) := none
  created_at : Option PyStr := none
  email_queued : Option Bool := none
deriving Repr, DecidableEq

/-- Everything observable about one `contact` request: the HTTP response,
the store afterwards, the logged errors, and the value the background
notification thread will eventually return (`none` when no thread was
started; the response never waits for it). -/
structure ContactResult where
  resp : HttpResponse
  state : StoreState
  log : List String
  emailSent : Option Bool
deriving Repr, DecidableEq

/-- The `contact` handler (`app.py` lines 139-161).  `req` is the parsed JSON
object; `now` the current timestamp; `dbFails`/`csvFails`/`env`/`smtpOk`
drive the external effects.  A non-string truthy field makes `.strip()`
raise `AttributeError`, which the handler-level `except` converts to a 500;
`_save_lead` swallows its own failures, so the success branch always answers
200 with `email_queued` literally `True` (`app.py` line 158). -/
def contact (req : List (String × JVal)) (now : PyStr) (dbFails csvFails : Bool)
    (env : Env) (smtpOk : Bool) (s : StoreState) : ContactResult :=
  let s0 := _init_db s
  match getStripped req "name", getStripped req "email", getStripped req "message" with
  | Except.ok name, Except.ok email, Except.ok message =>
    if name.isEmpty || !emailRegexMatch email || message.isEmpty then
      { resp := { status := 400, ok := false, error := some "Invalid input" },
        state := s0, log := [], emailSent := none }
    else if 120 < name.length || 200 < email.length || 8000 < message.length then
      { resp := { status := 413, ok := false, error := some "Input too long" },
        state := s0, log := [], emailSent := none }
    else
      let r := _save_lead dbFails csvFails now ("contact".toList) name email message s0
      { resp := { status := 200, ok := true, id := some r.1.1,
                  created_at := some r.1.2, email_queued := some true },
        state := r.2.1, log := r.2.2,
        emailSent := some (_send_email_sync env smtpOk) }
  | _, _, _ =>
      { resp := { status := 500, ok := false, error := some "server_error" },
        state := s0, log := ["[contact]"], emailSent := none }

/-- A request body whose three fields are the strings supplied. -/
def req₃ (name email message : PyStr) : List (String × JVal) :=
  [("name", JVal.jstr name), ("email", JVal.jstr email), ("message", JVal.jstr message)]

/-- One successful `_save_lead` call of a single-process, non-crashing run. -/
structure SaveOp where
  now : PyStr
  topic : PyStr
  name : PyStr
  email : PyStr
  message : PyStr

/-- Run a sequence of successful saves (no SQLite failure, no CSV failure). -/
def runSaves (s : StoreState) : List SaveOp → StoreState
  | [] => s
  | op :: rest =>
      runSaves (_save_lead false false op.now op.topic op.name op.email op.message s).2.1 rest

/-- The CSV record a table row is mirrored to (`app.py` line 71, with the
rowid of a successful insert, which is never 0). -/
def csvLineOf (r : LeadRow) : List PyStr :=
  [(toString r.id).toList, r.topic, r.name, r.email, r.message, r.created_at]

/-- Invariant of single-process, non-crashing operation: ids are positive and
bounded by the sequence, the CSV file exists, and every table row has its
mirror line in it. -/
def GoodStore (s : StoreState) : Prop :=
  (∀ r ∈ s.db.rows, 0 < r.id ∧ r.id ≤ s.db.seq) ∧
  ∃ lines, s.csv = some lines ∧ ∀ r ∈ s.db.rows, csvLineOf r ∈ lines

/-- A deployment with none of the SMTP environment variables set. -/
def envNone : Env :=
  { zoho_email := none, zoho_app_password := none, zoho_to_email := none }

/-!  Helper lemmas shared by the claim theorems. -/

/-- `(v or "").strip()` on a string value always succeeds and strips it
(the empty string is falsy but is replaced by the empty string again). -/
lemma stripField_jstr (v : PyStr) :
    pyStrAttrStrip (pyOrEmptyStr (JVal.jstr v)) = Except.ok (pyStrip v) := by
  cases v <;> rfl

lemma getStripped_req₃_name (n e m : PyStr) :
    getStripped (req₃ n e m) "name" = Except.ok (pyStrip n) := by
  simp [getStripped, req₃, getField, stripField_jstr]

lemma getStripped_req₃_email (n e m : PyStr) :
    getStripped (req₃ n e m) "email" = Except.ok (pyStrip e) := by
  simp [getStripped, req₃, getField, stripField_jstr]

lemma getStripped_req₃_message (n e m : PyStr) :
    getStripped (req₃ n e m) "message" = Except.ok (pyStrip m) := by
  simp [getStripped, req₃, getField, stripField_jstr]

/-- Unfolding of `contact` once the three field extractions are known to
succeed with the given stripped values. -/
lemma contact_ok_eq (req : List (String × JVal)) (now : PyStr) (dbf csvf : Bool)
    (env : Env) (smtpOk : Bool) (s : StoreState) (na ea ma : PyStr)
    (h1 : getStripped req "name" = Except.ok na)
    (h2 : getStripped req "email" = Except.ok ea)
    (h3 : getStripped req "message" = Except.ok ma) :
    contact req now dbf csvf env smtpOk s =
      (if na.isEmpty || !emailRegexMatch ea || ma.isEmpty then
        { resp := { status := 400, ok := false, error := some "Invalid input" },
          state := _init_db s, log := [], emailSent := none }
      else if 120 < na.length || 200 < ea.length || 8000 < ma.length then
        { resp := { status := 413, ok := false, error := some "Input too long" },
          state := _init_db s, log := [], emailSent := none }
      else
        let r := _save_lead dbf csvf now ("contact".toList) na ea ma (_init_db s)
        { resp := { status := 200, ok := true, id := some r.1.1,
                    created_at := some r.1.2, email_queued := some true },
          state := r.2.1, log := r.2.2,
          emailSent := some (_send_email_sync env smtpOk) }) := by
  unfold contact
  rw [h1, h2, h3]

/-!  Claim theorems. -/

/-- C9: store initialization is idempotent — running `_init_db` a second time
leaves the schema and the log sink exactly as the first run left them (no
duplicate table, no duplicate CSV file or header row, no error). -/
theorem init_db_idempotent (s : StoreState) : _init_db (_init_db s) = _init_db s := by
  obtain ⟨⟨t, rows, seq⟩, csv⟩ := s
  cases csv <;> rfl

/-- C6 counterexample: the `leads` table does not have the ten columns
`(id, topic, name, email, phone, company, sanctioned_load, monthly_kwh,
message, created_at)` claimed — `_init_db` creates only six. -/
theorem leads_schema_not_ten_columns :
    ¬ (leadsSchema = ["id", "topic", "name", "email", "phone", "company",
      "sanctioned_load", "monthly_kwh", "message", "created_at"]) := by
  decide

/-- C6 (amended): the persisted table is
`leads(id, topic, name, email, message, created_at)`; the log sink is a
CSV-like file whose header row is exactly that column list, and each save
appends one line in that same column order. -/
theorem leads_schema_and_csv_layout :
    leadsSchema = ["id", "topic", "name", "email", "message", "created_at"] ∧
    (_init_db initialState).csv = some [leadsSchema.map String.toList] ∧
    (∀ now topic name email message : PyStr, ∀ s : StoreState,
      ∀ lines : List (List PyStr), s.csv = some lines →
      ((_save_lead false false now topic name email message s).2.1).csv =
        some (lines ++
          [[(toString (s.db.seq + 1)).toList, topic, name, email, message, now]])) := by
  refine ⟨rfl, rfl, ?_⟩
  intro now topic name email message s lines hcsv
  simp [_save_lead, hcsv, pyOrEmptyId]

/-- C4: when the relational insert fails, `_save_lead` logs the error, still
appends a CSV line with the empty placeholder id, leaves the database
untouched, and returns normally with `lead_id = None` and the assigned
timestamp instead of raising. -/
theorem save_lead_insert_failure (now topic name email message : PyStr)
    (s : StoreState) (lines : List (List PyStr)) (hcsv : s.csv = some lines) :
    _save_lead true false now topic name email message s =
      ((none, now),
       { db := s.db,
         csv := some (lines ++ [[[], topic, name, email, message, now]]) },
       ["[DB insert]"]) := by
  simp [_save_lead, hcsv, pyOrEmptyId]

/-- C4 witness: a failing insert on a freshly initialized store. -/
theorem save_lead_insert_failure_witness :
    _save_lead true false ("t".toList) ("contact".toList) ("Bob".toList)
      ("a@b.co".toList) ("hi".toList) (_init_db initialState) =
      ((none, "t".toList),
       { db := (_init_db initialState).db,
         csv := some ([csvHeader] ++
           [[[], "contact".toList, "Bob".toList, "a@b.co".toList, "hi".toList,
             "t".toList]]) },
       ["[DB insert]"]) :=
  save_lead_insert_failure ("t".toList) ("contact".toList) ("Bob".toList)
    ("a@b.co".toList) ("hi".toList) (_init_db initialState) [csvHeader] rfl

/-- C6 witness: on a freshly initialized store, a save appends the single
CSV line for lead 1 in schema column order. -/
theorem leads_schema_and_csv_layout_witness :
    ((_save_lead false false ("t".toList) ("contact".toList) ("Bob".toList)
        ("a@b.co".toList) ("hi".toList) (_init_db initialState)).2.1).csv =
      some ([csvHeader] ++
        [[(toString ((_init_db initialState).db.seq + 1)).toList, "contact".toList,
          "Bob".toList, "a@b.co".toList, "hi".toList, "t".toList]]) :=
  leads_schema_and_csv_layout.2.2 ("t".toList) ("contact".toList) ("Bob".toList)
    ("a@b.co".toList) ("hi".toList) (_init_db initialState) [csvHeader] rfl

lemma goodStore_init : GoodStore (_init_db initialState) := by
  refine ⟨?_, [csvHeader], rfl, ?_⟩ <;> intro r hr <;> exact absurd hr (List.not_mem_nil r)

lemma goodStore_save (now topic name email message : PyStr) (s : StoreState)
    (h : GoodStore s) :
    GoodStore (_save_lead false false now topic name email message s).2.1 := by
  obtain ⟨hids, lines, hcsv, hmir⟩ := h
  refine ⟨?_, lines ++ [[(toString (s.db.seq + 1)).toList, topic, name, email, message, now]],
    ?_, ?_⟩
  · intro r hr
    simp only [_save_lead, if_neg Bool.false_ne_true, List.mem_append,
      List.mem_singleton] at hr
    rcases hr with hr | hr
    · exact ⟨(hids r hr).1, le_trans (hids r hr).2 (Nat.le_succ _)⟩
    · subst hr
      exact ⟨Nat.succ_pos _, le_refl _⟩
  · simp [_save_lead, hcsv, pyOrEmptyId]
  · intro r hr
    simp only [_save_lead, if_neg Bool.false_ne_true, List.mem_append,
      List.mem_singleton] at hr
    rcases hr with hr | hr
    · exact List.mem_append_left _ (hmir r hr)
    · subst hr
      simp [csvLineOf]

lemma goodStore_runSaves (ops : List SaveOp) (s : StoreState) (h : GoodStore s) :
    GoodStore (runSaves s ops) := by
  induction ops generalizing s with
  | nil => exact h
  | cons op rest ih =>
      exact ih _ (goodStore_save op.now op.topic op.name op.email op.message s h)

/-- C5: under single-process, non-crashing operation (every save succeeds on
both sinks), each row of the relational table has its mirror line — same id,
topic, name, email, message, created_at — in the CSV log sink. -/
theorem db_csv_roundtrip (ops : List SaveOp) (r : LeadRow)
    (hr : r ∈ (runSaves (_init_db initialState) ops).db.rows) :
    ∃ lines, (runSaves (_init_db initialState) ops).csv = some lines ∧
      csvLineOf r ∈ lines := by
  obtain ⟨_, lines, hcsv, hmir⟩ := goodStore_runSaves ops _ goodStore_init
  exact ⟨lines, hcsv, hmir r hr⟩

/-- C5 witness: after one save, lead 1 is mirrored in the CSV file. -/
theorem db_csv_roundtrip_witness :
    ∃ lines,
      (runSaves (_init_db initialState)
        [{ now := "t".toList, topic := "contact".toList, name := "Bob".toList,
           email := "a@b.co".toList, message := "hi".toList }]).csv = some lines ∧
      csvLineOf
          { id := 1, topic := "contact".toList, name := "Bob".toList,
            email := "a@b.co".toList, message := "hi".toList,
            created_at := "t".toList } ∈ lines :=
  db_csv_roundtrip
    [{ now := "t".toList, topic := "contact".toList, name := "Bob".toList,
       email := "a@b.co".toList, message := "hi".toList }]
    { id := 1, topic := "contact".toList, name := "Bob".toList,
      email := "a@b.co".toList, message := "hi".toList, created_at := "t".toList }
    (by decide)

/-- C3: a valid contact submission (on a store whose row ids are bounded by
the sequence, as every reachable store is) answers 200 with the freshly
assigned id `seq + 1`: strictly positive, strictly larger than every earlier
lead's id (so never reused), alongside an `email_queued` boolean and the
created_at echo; the stored row carries exactly the submitted (trimmed)
field values, and the id bound is re-established for the next save. -/
theorem contact_valid_fresh_id (n e m now : PyStr) (csvf : Bool) (env : Env)
    (smtpOk : Bool) (s : StoreState)
    (hn : (pyStrip n).isEmpty = false)
    (he : emailRegexMatch (pyStrip e) = true)
    (hm : (pyStrip m).isEmpty = false)
    (hnl : (pyStrip n).length ≤ 120)
    (hel : (pyStrip e).length ≤ 200)
    (hml : (pyStrip m).length ≤ 8000)
    (hinv : ∀ r ∈ s.db.rows, r.id ≤ s.db.seq) :
    (contact (req₃ n e m) now false csvf env smtpOk s).resp.status = 200 ∧
    (contact (req₃ n e m) now false csvf env smtpOk s).resp.ok = true ∧
    (contact (req₃ n e m) now false csvf env smtpOk s).resp.id =
      some (some (s.db.seq + 1)) ∧
    0 < s.db.seq + 1 ∧
    (∀ r ∈ s.db.rows, r.id < s.db.seq + 1) ∧
    (contact (req₃ n e m) now false csvf env smtpOk s).resp.email_queued =
      some true ∧
    (contact (req₃ n e m) now false csvf env smtpOk s).resp.created_at =
      some now ∧
    { id := s.db.seq + 1, topic := "contact".toList, name := pyStrip n,
      email := pyStrip e, message := pyStrip m, created_at := now } ∈
      (contact (req₃ n e m) now false csvf env smtpOk s).state.db.rows ∧
    (contact (req₃ n e m) now false csvf env smtpOk s).state.db.seq =
      s.db.seq + 1 ∧
    (∀ r ∈ (contact (req₃ n e m) now false csvf env smtpOk s).state.db.rows,
      r.id ≤ (contact (req₃ n e m) now false csvf env smtpOk s).state.db.seq) := by
  have hc := contact_ok_eq (req₃ n e m) now false csvf env smtpOk s
    (pyStrip n) (pyStrip e) (pyStrip m) (getStripped_req₃_name n e m)
    (getStripped_req₃_email n e m) (getStripped_req₃_message n e m)
  have hcond1 : ((pyStrip n).isEmpty || !emailRegexMatch (pyStrip e) ||
      (pyStrip m).isEmpty) = false := by
    rw [hn, he, hm]
    rfl
  have hcond2 : (decide (120 < (pyStrip n).length) ||
      decide (200 < (pyStrip e).length) ||
      decide (8000 < (pyStrip m).length)) = false := by
    simp only [Bool.or_eq_false_iff, decide_eq_false_iff_not, Nat.not_lt]
    exact ⟨⟨hnl, hel⟩, hml⟩
  rw [hc, hcond1, hcond2]
  simp only [if_neg Bool.false_ne_true, _save_lead, _init_db]
  refine ⟨trivial, trivial, trivial, Nat.succ_pos _, ?_, trivial, trivial,
    List.mem_append_right _ (List.mem_singleton.mpr rfl), trivial, ?_⟩
  · intro r hr
    exact Nat.lt_succ_of_le (hinv r hr)
  · intro r hr
    rcases List.mem_append.mp hr with hr | hr
    · exact le_trans (hinv r hr) (Nat.le_succ _)
    · rw [List.mem_singleton.mp hr]

/-- C3 witness: one valid submission on a fresh store gets id 1. -/
theorem contact_valid_fresh_id_witness :
    (contact (req₃ ("Bob".toList) ("a@b.co".toList) ("hi".toList)) ("t".toList)
        false false envNone true initialState).resp.status = 200 ∧
    (contact (req₃ ("Bob".toList) ("a@b.co".toList) ("hi".toList)) ("t".toList)
        false false envNone true initialState).resp.ok = true ∧
    (contact (req₃ ("Bob".toList) ("a@b.co".toList) ("hi".toList)) ("t".toList)
        false false envNone true initialState).resp.id =
      some (some (initialState.db.seq + 1)) ∧
    0 < initialState.db.seq + 1 ∧
    (∀ r ∈ initialState.db.rows, r.id < initialState.db.seq + 1) ∧
    (contact (req₃ ("Bob".toList) ("a@b.co".toList) ("hi".toList)) ("t".toList)
        false false envNone true initialState).resp.email_queued = some true ∧
    (contact (req₃ ("Bob".toList) ("a@b.co".toList) ("hi".toList)) ("t".toList)
        false false envNone true initialState).resp.created_at =
      some ("t".toList) ∧
    { id := initialState.db.seq + 1, topic := "contact".toList,
      name := pyStrip ("Bob".toList), email := pyStrip ("a@b.co".toList),
      message := pyStrip ("hi".toList), created_at := "t".toList } ∈
      (contact (req₃ ("Bob".toList) ("a@b.co".toList) ("hi".toList)) ("t".toList)
        false false envNone true initialState).state.db.rows ∧
    (contact (req₃ ("Bob".toList) ("a@b.co".toList) ("hi".toList)) ("t".toList)
        false false envNone true initialState).state.db.seq =
      initialState.db.seq + 1 ∧
    (∀ r ∈ (contact (req₃ ("Bob".toList) ("a@b.co".toList) ("hi".toList))
        ("t".toList) false false envNone true initialState).state.db.rows,
      r.id ≤ (contact (req₃ ("Bob".toList) ("a@b.co".toList) ("hi".toList))
        ("t".toList) false false envNone true initialState).state.db.seq) :=
  contact_valid_fresh_id ("Bob".toList) ("a@b.co".toList) ("hi".toList)
    ("t".toList) false envNone true initialState (by decide) (by decide)
    (by decide) (by decide) (by decide) (by decide)
    (fun r hr => absurd hr (List.not_mem_nil r))

/-- With the sender address or the credential unset (or blank), the notifier
logs "Missing env vars; skip send" and returns `False` without attempting
delivery. -/
lemma send_email_skip (env : Env) (smtpOk : Bool)
    (h : pyStrip (pyOrDefault env.zoho_email []) = [] ∨
         pyStrip (pyOrDefault env.zoho_app_password []) = []) :
    _send_email_sync env smtpOk = false := by
  rcases h with h | h <;> simp [_send_email_sync, h]

/-- C1 counterexample: with the whole mail-relay configuration unset, an
otherwise-valid submission is answered with the success envelope, but its
`email_queued` field is `True`, not the claimed `False`. -/
theorem contact_email_queued_cx :
    (contact (req₃ ("Bob".toList) ("a@b.co".toList) ("hi".toList)) ("t".toList)
        false false envNone true initialState).resp.ok = true ∧
    (contact (req₃ ("Bob".toList) ("a@b.co".toList) ("hi".toList)) ("t".toList)
        false false envNone true initialState).resp.status = 200 ∧
    ¬ ((contact (req₃ ("Bob".toList) ("a@b.co".toList) ("hi".toList)) ("t".toList)
        false false envNone true initialState).resp.email_queued = some false) := by
  decide

/-- C1 (amended): while the mail-relay configuration is incomplete (sender
address or credential unset/blank), an otherwise-valid submission is still
answered with the success envelope — the notification failure never fails
the request — but `email_queued` is hardcoded `True`; the background send
itself returns `False` (skipped). -/
theorem contact_notifier_incomplete_config (n e m now : PyStr) (dbf csvf : Bool)
    (env : Env) (smtpOk : Bool) (s : StoreState)
    (hn : (pyStrip n).isEmpty = false)
    (he : emailRegexMatch (pyStrip e) = true)
    (hm : (pyStrip m).isEmpty = false)
    (hnl : (pyStrip n).length ≤ 120)
    (hel : (pyStrip e).length ≤ 200)
    (hml : (pyStrip m).length ≤ 8000)
    (hcfg : pyStrip (pyOrDefault env.zoho_email []) = [] ∨
            pyStrip (pyOrDefault env.zoho_app_password []) = []) :
    (contact (req₃ n e m) now dbf csvf env smtpOk s).resp.status = 200 ∧
    (contact (req₃ n e m) now dbf csvf env smtpOk s).resp.ok = true ∧
    (contact (req₃ n e m) now dbf csvf env smtpOk s).resp.email_queued =
      some true ∧
    (contact (req₃ n e m) now dbf csvf env smtpOk s).emailSent = some false := by
  have hc := contact_ok_eq (req₃ n e m) now dbf csvf env smtpOk s
    (pyStrip n) (pyStrip e) (pyStrip m) (getStripped_req₃_name n e m)
    (getStripped_req₃_email n e m) (getStripped_req₃_message n e m)
  have hcond1 : ((pyStrip n).isEmpty || !emailRegexMatch (pyStrip e) ||
      (pyStrip m).isEmpty) = false := by
    rw [hn, he, hm]
    rfl
  have hcond2 : (decide (120 < (pyStrip n).length) ||
      decide (200 < (pyStrip e).length) ||
      decide (8000 < (pyStrip m).length)) = false := by
    simp only [Bool.or_eq_false_iff, decide_eq_false_iff_not, Nat.not_lt]
    exact ⟨⟨hnl, hel⟩, hml⟩
  rw [hc, hcond1, hcond2]
  simp [send_email_skip env smtpOk hcfg]

/-- C1 witness: a valid submission with no sender configured. -/
theorem contact_notifier_incomplete_config_witness :
    (contact (req₃ ("Bob".toList) ("a@b.co".toList) ("hi".toList)) ("t".toList)
        false false envNone true initialState).resp.status = 200 ∧
    (contact (req₃ ("Bob".toList) ("a@b.co".toList) ("hi".toList)) ("t".toList)
        false false envNone true initialState).resp.ok = true ∧
    (contact (req₃ ("Bob".toList) ("a@b.co".toList) ("hi".toList)) ("t".toList)
        false false envNone true initialState).resp.email_queued = some true ∧
    (contact (req₃ ("Bob".toList) ("a@b.co".toList) ("hi".toList)) ("t".toList)
        false false envNone true initialState).emailSent = some false :=
  contact_notifier_incomplete_config ("Bob".toList) ("a@b.co".toList)
    ("hi".toList) ("t".toList) false false envNone true initialState
    (by decide) (by decide) (by decide) (by decide) (by decide) (by decide)
    (Or.inl rfl)

/-- C2 counterexample: a contact request whose `name` field is the (truthy,
non-string) number 5 makes `.strip()` raise `AttributeError`, which the
handler's catch-all converts into a 500 server error — not the claimed
400/413 client error. -/
theorem contact_nonstring_500_cx :
    (contact [("name", JVal.jnum 5), ("email", JVal.jstr ("a@b.co".toList)),
        ("message", JVal.jstr ("hi".toList))] ("t".toList)
        false false envNone true initialState).resp.status = 500 ∧
    ¬ ((contact [("name", JVal.jnum 5), ("email", JVal.jstr ("a@b.co".toList)),
        ("message", JVal.jstr ("hi".toList))] ("t".toList)
        false false envNone true initialState).resp.status = 400 ∨
       (contact [("name", JVal.jnum 5), ("email", JVal.jstr ("a@b.co".toList)),
        ("message", JVal.jstr ("hi".toList))] ("t".toList)
        false false envNone true initialState).resp.status = 413) := by
  decide

/-- C2 (amended): for every contact request whose three fields each coerce to
a string (missing, falsy, or string-valued — so that `.strip()` succeeds),
any validation failure (missing/empty field, malformed email, or oversized
field) is answered with a client error 400 or 413 and `ok:false`, never a
500; a truthy non-string field instead raises and yields 500. -/
theorem contact_invalid_client_error (req : List (String × JVal)) (now : PyStr)
    (dbf csvf : Bool) (env : Env) (smtpOk : Bool) (s : StoreState)
    (na ea ma : PyStr)
    (hna : getStripped req "name" = Except.ok na)
    (hea : getStripped req "email" = Except.ok ea)
    (hma : getStripped req "message" = Except.ok ma)
    (hbad : na = [] ∨ emailRegexMatch ea = false ∨ ma = [] ∨
            120 < na.length ∨ 200 < ea.length ∨ 8000 < ma.length) :
    ((contact req now dbf csvf env smtpOk s).resp.status = 400 ∨
     (contact req now dbf csvf env smtpOk s).resp.status = 413) ∧
    (contact req now dbf csvf env smtpOk s).resp.ok = false := by
  rw [contact_ok_eq req now dbf csvf env smtpOk s na ea ma hna hea hma]
  by_cases h1 : (na.isEmpty || !emailRegexMatch ea || ma.isEmpty) = true
  · rw [if_pos h1]
    exact ⟨Or.inl rfl, rfl⟩
  · rw [if_neg h1]
    rcases hbad with h | h | h | h | h | h
    · exact absurd (by simp [h]) h1
    · exact absurd (by simp [h]) h1
    · exact absurd (by simp [h]) h1
    · rw [if_pos (by simp [h])]
      exact ⟨Or.inr rfl, rfl⟩
    · rw [if_pos (by simp [h])]
      exact ⟨Or.inr rfl, rfl⟩
    · rw [if_pos (by simp [h])]
      exact ⟨Or.inr rfl, rfl⟩

/-- C2 witness: a request with no `name` field gets a client error. -/
theorem contact_invalid_client_error_witness :
    ((contact [("email", JVal.jstr ("a@b.co".toList)),
        ("message", JVal.jstr ("hi".toList))] ("t".toList)
        false false envNone true initialState).resp.status = 400 ∨
     (contact [("email", JVal.jstr ("a@b.co".toList)),
        ("message", JVal.jstr ("hi".toList))] ("t".toList)
        false false envNone true initialState).resp.status = 413) ∧
    (contact [("email", JVal.jstr ("a@b.co".toList)),
        ("message", JVal.jstr ("hi".toList))] ("t".toList)
        false false envNone true initialState).resp.ok = false :=
  contact_invalid_client_error
    [("email", JVal.jstr ("a@b.co".toList)), ("message", JVal.jstr ("hi".toList))]
    ("t".toList) false false envNone true initialState
    [] ("a@b.co".toList) ("hi".toList) rfl rfl rfl (Or.inl rfl)

/-- C7: every contact submission missing `name`, `email` or `message` (the
remaining fields extracting to strings) is answered `ok:false` with status
400; the email `"not-an-email"` fails the check `^[^@]+@[^@]+\.[^@]+$` and
such a submission gets 400, while `"a@b.co"` passes the check. -/
theorem contact_missing_field_400 :
    (∀ (req : List (String × JVal)) (now : PyStr) (dbf csvf : Bool) (env : Env)
        (smtpOk : Bool) (s : StoreState) (eb mb : PyStr),
      getField req "name" = JVal.jnull →
      getStripped req "email" = Except.ok eb →
      getStripped req "message" = Except.ok mb →
      (contact req now dbf csvf env smtpOk s).resp.status = 400 ∧
      (contact req now dbf csvf env smtpOk s).resp.ok = false) ∧
    (∀ (req : List (String × JVal)) (now : PyStr) (dbf csvf : Bool) (env : Env)
        (smtpOk : Bool) (s : StoreState) (nb mb : PyStr),
      getStripped req "name" = Except.ok nb →
      getField req "email" = JVal.jnull →
      getStripped req "message" = Except.ok mb →
      (contact req now dbf csvf env smtpOk s).resp.status = 400 ∧
      (contact req now dbf csvf env smtpOk s).resp.ok = false) ∧
    (∀ (req : List (String × JVal)) (now : PyStr) (dbf csvf : Bool) (env : Env)
        (smtpOk : Bool) (s : StoreState) (nb eb : PyStr),
      getStripped req "name" = Except.ok nb →
      getStripped req "email" = Except.ok eb →
      getField req "message" = JVal.jnull →
      (contact req now dbf csvf env smtpOk s).resp.status = 400 ∧
      (contact req now dbf csvf env smtpOk s).resp.ok = false) ∧
    emailRegexMatch ("not-an-email".toList) = false ∧
    emailRegexMatch ("a@b.co".toList) = true ∧
    ((contact (req₃ ("Bob".toList) ("not-an-email".toList) ("hi".toList))
        ("t".toList) false false envNone true initialState).resp.status = 400 ∧
     (contact (req₃ ("Bob".toList) ("not-an-email".toList) ("hi".toList))
        ("t".toList) false false envNone true initialState).resp.ok = false) := by
  refine ⟨?_, ?_, ?_, rfl, rfl, by decide⟩
  · intro req now dbf csvf env smtpOk s eb mb h1 h2 h3
    have hname : getStripped req "name" = Except.ok [] := by
      unfold getStripped
      rw [h1]
      rfl
    rw [contact_ok_eq req now dbf csvf env smtpOk s [] eb mb hname h2 h3,
      if_pos (by simp)]
    exact ⟨rfl, rfl⟩
  · intro req now dbf csvf env smtpOk s nb mb h1 h2 h3
    have hemail : getStripped req "email" = Except.ok [] := by
      unfold getStripped
      rw [h2]
      rfl
    have hre : emailRegexMatch [] = false := rfl
    rw [contact_ok_eq req now dbf csvf env smtpOk s nb [] mb h1 hemail h3,
      if_pos (by simp [hre])]
    exact ⟨rfl, rfl⟩
  · intro req now dbf csvf env smtpOk s nb eb h1 h2 h3
    have hmsg : getStripped req "message" = Except.ok [] := by
      unfold getStripped
      rw [h3]
      rfl
    rw [contact_ok_eq req now dbf csvf env smtpOk s nb eb [] h1 h2 hmsg,
      if_pos (by simp)]
    exact ⟨rfl, rfl⟩

/-- C7 witness: the spec's example `{"email":"a@b.com","message":"hi"}`
(no name) gets `ok:false`, 400. -/
theorem contact_missing_field_400_witness :
    (contact [("email", JVal.jstr ("a@b.com".toList)),
        ("message", JVal.jstr ("hi".toList))] ("t".toList)
        false false envNone true initialState).resp.status = 400 ∧
    (contact [("email", JVal.jstr ("a@b.com".toList)),
        ("message", JVal.jstr ("hi".toList))] ("t".toList)
        false false envNone true initialState).resp.ok = false :=
  contact_missing_field_400.1
    [("email", JVal.jstr ("a@b.com".toList)), ("message", JVal.jstr ("hi".toList))]
    ("t".toList) false false envNone true initialState
    ("a@b.com".toList) ("hi".toList) rfl rfl rfl

/-- C8: with a valid email and non-empty message (within their length
limits), a trimmed name of length exactly 120 is accepted (status 200,
`ok:true`), while a trimmed name of length 121 is rejected with status 413
and `ok:false` — a status distinct from the 400 of generically invalid
input. -/
theorem contact_name_length_boundary (n120 n121 e m now : PyStr)
    (dbf csvf : Bool) (env : Env) (smtpOk : Bool) (s : StoreState)
    (h120s : pyStrip n120 = n120) (h120 : n120.length = 120)
    (h121s : pyStrip n121 = n121) (h121 : n121.length = 121)
    (hes : pyStrip e = e) (hem : emailRegexMatch e = true) (hel : e.length ≤ 200)
    (hms : pyStrip m = m) (hmne : m.isEmpty = false) (hml : m.length ≤ 8000) :
    ((contact (req₃ n120 e m) now dbf csvf env smtpOk s).resp.status = 200 ∧
     (contact (req₃ n120 e m) now dbf csvf env smtpOk s).resp.ok = true ∧
     413 ≠ 400) ∧
    ((contact (req₃ n121 e m) now dbf csvf env smtpOk s).resp.status = 413 ∧
     (contact (req₃ n121 e m) now dbf csvf env smtpOk s).resp.ok = false) := by
  have hne120 : n120.isEmpty = false := by
    cases n120
    · simp at h120
    · rfl
  have hne121 : n121.isEmpty = false := by
    cases n121
    · simp at h121
    · rfl
  constructor
  · rw [contact_ok_eq (req₃ n120 e m) now dbf csvf env smtpOk s
      (pyStrip n120) (pyStrip e) (pyStrip m) (getStripped_req₃_name n120 e m)
      (getStripped_req₃_email n120 e m) (getStripped_req₃_message n120 e m),
      h120s, hes, hms]
    have hcond1 : (n120.isEmpty || !emailRegexMatch e || m.isEmpty) = false := by
      rw [hne120, hem, hmne]
      rfl
    have hcond2 : (decide (120 < n120.length) || decide (200 < e.length) ||
        decide (8000 < m.length)) = false := by
      simp only [Bool.or_eq_false_iff, decide_eq_false_iff_not, Nat.not_lt]
      exact ⟨⟨by omega, hel⟩, hml⟩
    rw [hcond1, hcond2, if_neg Bool.false_ne_true, if_neg Bool.false_ne_true]
    exact ⟨rfl, rfl, by decide⟩
  · rw [contact_ok_eq (req₃ n121 e m) now dbf csvf env smtpOk s
      (pyStrip n121) (pyStrip e) (pyStrip m) (getStripped_req₃_name n121 e m)
      (getStripped_req₃_email n121 e m) (getStripped_req₃_message n121 e m),
      h121s, hes, hms]
    have hcond1 : (n121.isEmpty || !emailRegexMatch e || m.isEmpty) = false := by
      rw [hne121, hem, hmne]
      rfl
    have hcond2 : (decide (120 < n121.length) || decide (200 < e.length) ||
        decide (8000 < m.length)) = true := by
      have : 120 < n121.length := by omega
      simp [this]
    rw [hcond1, hcond2, if_neg Bool.false_ne_true, if_pos rfl]
    exact ⟨rfl, rfl⟩

/-- C8 witness: concrete names of 120 and 121 copies of `a`. -/
theorem contact_name_length_boundary_witness :
    ((contact (req₃ (List.replicate 120 'a') ("a@b.co".toList) ("hi".toList))
        ("t".toList) false false envNone true initialState).resp.status = 200 ∧
     (contact (req₃ (List.replicate 120 'a') ("a@b.co".toList) ("hi".toList))
        ("t".toList) false false envNone true initialState).resp.ok = true ∧
     413 ≠ 400) ∧
    ((contact (req₃ (List.replicate 121 'a') ("a@b.co".toList) ("hi".toList))
        ("t".toList) false false envNone true initialState).resp.status = 413 ∧
     (contact (req₃ (List.replicate 121 'a') ("a@b.co".toList) ("hi".toList))
        ("t".toList) false false envNone true initialState).resp.ok = false) :=
  contact_name_length_boundary (List.replicate 120 'a') (List.replicate 121 'a')
    ("a@b.co".toList) ("hi".toList) ("t".toList) false false envNone true
    initialState (by decide) (by decide) (by decide) (by decide) (by decide)
    (by decide) (by decide) (by decide) (by decide) (by decide)

/-- C10: the presence/format check runs before the length check — a
submission failing a presence/format rule gets 400 whatever the field
lengths are, and 413 occurs only when all three presence/format checks pass
and some field is oversized. -/
theorem contact_check_order (n e m now : PyStr) (dbf csvf : Bool) (env : Env)
    (smtpOk : Bool) (s : StoreState) :
    ((pyStrip n = [] ∨ emailRegexMatch (pyStrip e) = false ∨ pyStrip m = []) →
      (contact (req₃ n e m) now dbf csvf env smtpOk s).resp.status = 400) ∧
    ((contact (req₃ n e m) now dbf csvf env smtpOk s).resp.status = 413 →
      pyStrip n ≠ [] ∧ emailRegexMatch (pyStrip e) = true ∧ pyStrip m ≠ [] ∧
      (120 < (pyStrip n).length ∨ 200 < (pyStrip e).length ∨
        8000 < (pyStrip m).length)) := by
  rw [contact_ok_eq (req₃ n e m) now dbf csvf env smtpOk s
    (pyStrip n) (pyStrip e) (pyStrip m) (getStripped_req₃_name n e m)
    (getStripped_req₃_email n e m) (getStripped_req₃_message n e m)]
  constructor
  · intro h
    rw [if_pos (show ((pyStrip n).isEmpty || !emailRegexMatch (pyStrip e) ||
      (pyStrip m).isEmpty) = true by rcases h with h | h | h <;> simp [h])]
  · intro h
    by_cases h1 : ((pyStrip n).isEmpty || !emailRegexMatch (pyStrip e) ||
        (pyStrip m).isEmpty) = true
    · rw [if_pos h1] at h
      simp at h
    · rw [if_neg h1] at h
      have h1' : (pyStrip n).isEmpty = false ∧
          emailRegexMatch (pyStrip e) = true ∧ (pyStrip m).isEmpty = false := by
        rcases Bool.eq_false_or_eq_true (pyStrip n).isEmpty with ha | ha <;>
          rcases Bool.eq_false_or_eq_true (emailRegexMatch (pyStrip e)) with hb | hb <;>
          rcases Bool.eq_false_or_eq_true (pyStrip m).isEmpty with hc | hc <;>
          simp [ha, hb, hc] at h1 ⊢
      by_cases h2 : (decide (120 < (pyStrip n).length) ||
          decide (200 < (pyStrip e).length) ||
          decide (8000 < (pyStrip m).length)) = true
      · refine ⟨?_, h1'.2.1, ?_, ?_⟩
        · intro hnil
          rw [hnil] at h1'
          exact absurd h1'.1 (by decide)
        · intro hnil
          rw [hnil] at h1'
          exact absurd h1'.2.2 (by decide)
        · have h2' := h2
          simp only [Bool.or_eq_true, decide_eq_true_eq] at h2'
          exact or_assoc.mp h2'
      · rw [if_neg h2] at h
        simp at h

/-- C10 witness: an empty name with an oversized (8001-character) message
still gets 400, not 413. -/
theorem contact_check_order_witness :
    (contact (req₃ [] ("a@b.co".toList) (List.replicate 8001 'a')) ("t".toList)
      false false envNone true initialState).resp.status = 400 :=
  (contact_check_order [] ("a@b.co".toList) (List.replicate 8001 'a')
    ("t".toList) false false envNone true initialState).1 (Or.inl rfl)

/-!  Adequacy of the executable email check: `emailRegexMatch` agrees with
the declarative decomposition reading of `^[^@]+@[^@]+\.[^@]+$`. -/

/-- The element `dropWhile` stops at fails the predicate. -/
lemma dropWhile_head_neg {α : Type} (p : α → Bool) (s : List α) (d : α)
    (t : List α) (h : s.dropWhile p = d :: t) : p d = false := by
  induction s with
  | nil => simp at h
  | cons a as ih =>
      by_cases hp : p a = true
      · rw [List.dropWhile_cons_of_pos hp] at h
        exact ih h
      · rw [List.dropWhile_cons_of_neg hp] at h
        cases h
        simp only [Bool.not_eq_true] at hp
        exact hp

/-- `takeWhile` over a satisfying prefix followed by a failing element. -/
lemma takeWhile_all_front {α : Type} (p : α → Bool) (a : List α) (d : α)
    (t : List α) (ha : ∀ x ∈ a, p x = true) (hd : p d = false) :
    (a ++ d :: t).takeWhile p = a := by
  induction a with
  | nil =>
      simp only [List.nil_append]
      exact List.takeWhile_cons_of_neg (by simp [hd])
  | cons x xs ih =>
      simp only [List.cons_append]
      rw [List.takeWhile_cons_of_pos (ha x (List.mem_cons_self x xs)),
        ih (fun y hy => ha y (List.mem_cons_of_mem x hy))]

/-- `dropWhile` over a satisfying prefix followed by a failing element. -/
lemma dropWhile_all_front {α : Type} (p : α → Bool) (a : List α) (d : α)
    (t : List α) (ha : ∀ x ∈ a, p x = true) (hd : p d = false) :
    (a ++ d :: t).dropWhile p = d :: t := by
  induction a with
  | nil =>
      simp only [List.nil_append]
      exact List.dropWhile_cons_of_neg (by simp [hd])
  | cons x xs ih =>
      simp only [List.cons_append]
      rw [List.dropWhile_cons_of_pos (ha x (List.mem_cons_self x xs))]
      exact ih (fun y hy => ha y (List.mem_cons_of_mem x hy))

/-- An element of `l.dropLast` splits `l` with a nonempty right part. -/
lemma mem_dropLast_split {α : Type} (a : α) (l : List α) (h : a ∈ l.dropLast) :
    ∃ u v, l = u ++ a :: v ∧ v ≠ [] := by
  induction l with
  | nil => simp at h
  | cons x xs ih =>
      cases xs with
      | nil => simp at h
      | cons y ys =>
          rw [List.dropLast_cons₂] at h
          rcases List.mem_cons.mp h with h | h
          · subst h
            exact ⟨[], y :: ys, rfl, by simp⟩
          · obtain ⟨u, v, huv, hvne⟩ := ih h
            exact ⟨x :: u, v, by rw [List.cons_append, ← huv], hvne⟩

/-- `emailRegexMatch`, zeta-reduced. -/
lemma emailRegexMatch_eq (s : PyStr) :
    emailRegexMatch s =
      (match s.dropWhile (fun c => c != '@') with
      | [] => false
      | _ :: domain =>
          !(s.takeWhile (fun c => c != '@')).isEmpty &&
            domain.all (fun c => c != '@') &&
            ((domain.drop 1).dropLast.contains '.')) := rfl

/-- The executable check implements the regex: it accepts exactly the strings
of the form `A ++ "@" ++ B ++ "." ++ C` with `A`, `B`, `C` nonempty and
`'@'`-free. -/
theorem emailRegexMatch_iff_spec (s : PyStr) :
    emailRegexMatch s = true ↔ EmailRegexSpec s := by
  constructor
  · intro h
    rw [emailRegexMatch_eq] at h
    cases hrest : s.dropWhile (fun c => c != '@') with
    | nil =>
        rw [hrest] at h
        simp at h
    | cons d domain =>
        rw [hrest] at h
        simp only [Bool.and_eq_true, Bool.not_eq_true'] at h
        obtain ⟨⟨hlp, hall⟩, hcont⟩ := h
        have hd : (fun c => c != '@') d = false :=
          dropWhile_head_neg _ s d domain hrest
        have hdat : d = '@' := by simpa using hd
        have hs : s = s.takeWhile (fun c => c != '@') ++ d :: domain := by
          have hts := List.takeWhile_append_dropWhile (fun c => c != '@') s
          rw [hrest] at hts
          exact hts.symm
        have hane : s.takeWhile (fun c => c != '@') ≠ [] := by
          intro hnil
          rw [hnil] at hlp
          simp at hlp
        have haat : ∀ x ∈ s.takeWhile (fun c => c != '@'), x ≠ '@' := by
          intro x hx
          have hpx := List.mem_takeWhile_imp hx
          simpa using hpx
        have hdom : ∀ z ∈ domain, z ≠ '@' := by
          intro z hz
          have hz' := List.all_eq_true.mp hall z hz
          simpa using hz'
        cases domain with
        | nil => simp at hcont
        | cons x xs =>
            have hmem : '.' ∈ xs.dropLast := by
              simp only [List.drop_succ_cons, List.drop_zero] at hcont
              exact List.elem_iff.mp hcont
            have hxsne : xs ≠ [] := by
              intro hh
              rw [hh] at hmem
              simp at hmem
            obtain ⟨u, v, huv, hvne⟩ := mem_dropLast_split '.' xs hmem
            refine ⟨s.takeWhile (fun c => c != '@'), x :: u, v, hane,
              (by simp), hvne, haat, ?_, ?_, ?_⟩
            · intro z hz
              rcases List.mem_cons.mp hz with hz | hz
              · rw [hz]
                exact hdom x (List.mem_cons_self x xs)
              · refine hdom z (List.mem_cons_of_mem x ?_)
                rw [huv]
                exact List.mem_append_left _ hz
            · intro z hz
              refine hdom z (List.mem_cons_of_mem x ?_)
              rw [huv]
              exact List.mem_append_right _ (List.mem_cons_of_mem _ hz)
            · conv_lhs => rw [hs]
              rw [hdat, huv]
              simp
  · rintro ⟨a, b, c, hane, hbne, hcne, haat, hbat, hcat, hsplit⟩
    have hpa : ∀ x ∈ a, (fun c => c != '@') x = true := by
      intro x hx
      simpa using haat x hx
    have hd : (fun c => c != '@') '@' = false := by simp
    rw [emailRegexMatch_eq, hsplit, dropWhile_all_front _ a '@' _ hpa hd]
    simp only []
    rw [takeWhile_all_front _ a '@' _ hpa hd]
    have hae : a.isEmpty = false := by
      cases a
      · exact absurd rfl hane
      · rfl
    simp only [Bool.and_eq_true, hae, Bool.not_false]
    refine ⟨⟨trivial, ?_⟩, ?_⟩
    · refine List.all_eq_true.mpr ?_
      intro x hx
      rcases List.mem_append.mp hx with hx | hx
      · simpa using hbat x hx
      · rcases List.mem_cons.mp hx with hx | hx
        · rw [hx]
          rfl
        · simpa using hcat x hx
    · cases b with
      | nil => exact absurd rfl hbne
      | cons y b' =>
          cases c with
          | nil => exact absurd rfl hcne
          | cons z c' =>
              simp only [List.cons_append, List.drop_succ_cons, List.drop_zero]
              refine List.elem_iff.mpr ?_
              have hsp : b' ++ '.' :: (z :: c') = (b' ++ ['.']) ++ (z :: c') := by
                simp
              rw [hsp, List.dropLast_append_of_ne_nil _ (by simp)]
              exact List.mem_append_left _
                (List.mem_append_right _ (List.mem_singleton.mpr rfl))

end App
